import Mathlib

/-!
Shallow embedding of the SPH density / smoothing-length iteration of
src/density.c and of the gradient finalisation routines of
src/libgadget/mfm/gradients.c (MP-Gadget).  C doubles are modelled by the
reals; the baseline build is embedded (no optional-physics ifdef blocks:
no BLACK_HOLES, WINDS, VOLUME_CORRECTION, DENSITY_INDEPENDENT_SPH,
SOFTEREQS, SPH_GRAD_RHO).
-/

namespace MPGadget

/-- Spatial dimensionality, the NUMDIMS constant of the source (3). -/
def NUMDIMS : ℝ := 3

/-- Adiabatic index GAMMA used by the pressure update. -/
noncomputable def GAMMA : ℝ := 5 / 3

/-- Parameters of the density iteration read from the global All structure. -/
structure DensityParams where
  DesNumNgb : ℝ
  MaxNumNgbDeviation : ℝ
  MinGasHsml : ℝ

/-- Per-particle state touched by density_post_process and
density_check_neighbours in the baseline build.  ptype stands for the
source field P[i].Type; NumNgb for P[i].n.NumNgb; Rot1..Rot3 for
SPHP(i).Rot[0..2].  The remaining fields keep their source names. -/
structure Particle where
  ptype : ℕ
  Hsml : ℝ
  NumNgb : ℝ
  Density : ℝ
  DhsmlDensityFactor : ℝ
  DivVel : ℝ
  Rot1 : ℝ
  Rot2 : ℝ
  Rot3 : ℝ
  CurlVel : ℝ
  Entropy : ℝ
  DtEntropy : ℝ
  Pressure : ℝ
  DensityIterationDone : Bool

/-- density_post_process (src/density.c lines 536-602, baseline build).
The entropy drift dt_entr (computed in the source from the time-bin
bookkeeping) is passed in as a parameter. -/
noncomputable def density_post_process (dt_entr : ℝ) (p : Particle) : Particle :=
  if p.ptype = 0 then
    let p1 :=
      if 0 < p.Density then
        let f0 := p.DhsmlDensityFactor * (p.Hsml / (NUMDIMS * p.Density))
        let f1 := if -0.9 < f0 then 1 / (1 + f0) else 1
        { p with
            DhsmlDensityFactor := f1
            CurlVel := Real.sqrt (p.Rot1 ^ 2 + p.Rot2 ^ 2 + p.Rot3 ^ 2) / p.Density
            DivVel := p.DivVel / p.Density }
      else p
    { p1 with Pressure := (p1.Entropy + p1.DtEntropy * dt_entr) * p1.Density ^ GAMMA }
  else p

/-- density_isactive (src/density.c lines 518-534, baseline build).
A particle already marked DensityIterationDone is never active; otherwise
only gas (type 0) is.  The endrun(9999) diagnostic for a negative TimeBin
(memory-corruption guard, unreachable after the done check relevant here)
is not modelled. -/
def density_isactive (p : Particle) : Bool :=
  if p.DensityIterationDone then false
  else if p.ptype = 0 then true
  else false

/-- Bracket update step of density_check_neighbours
(src/density.c lines 632-643): DMAX(Hsml, Left) on the low side, otherwise
Right gets Hsml when unset and is lowered to Hsml when Hsml undercuts it. -/
noncomputable def bracketUpdate (prm : DensityParams) (p : Particle) (L R : ℝ) :
    ℝ × ℝ :=
  if p.NumNgb < prm.DesNumNgb - prm.MaxNumNgbDeviation then
    (max p.Hsml L, R)
  else if R ≠ 0 then
    (L, if p.Hsml < R then p.Hsml else R)
  else
    (L, p.Hsml)

/-- The Newton-like correction factor of density_check_neighbours
(src/density.c lines 656-658 and 673-675). -/
noncomputable def newtonFac (desnumngb NumNgb F : ℝ) : ℝ :=
  1 - (NumNgb - desnumngb) / (NUMDIMS * NumNgb) * F

/-- New smoothing length proposed from the updated bracket
(src/density.c lines 645-685).  The Left = Right = 0 case aborts in the
source (endrun 8188) with Hsml never reassigned; that case is handled by
the caller, here the fall-through leaves Hsml unchanged. -/
noncomputable def hsmlProposal (prm : DensityParams) (p : Particle) (L R : ℝ) : ℝ :=
  if 0 < R ∧ 0 < L then
    (0.5 * (L ^ 3 + R ^ 3)) ^ ((1 : ℝ) / 3)
  else if R = 0 ∧ 0 < L then
    (if p.ptype = 0 ∧ |p.NumNgb - prm.DesNumNgb| < 0.5 * prm.DesNumNgb then
      (if newtonFac prm.DesNumNgb p.NumNgb p.DhsmlDensityFactor < 1.26 then
        p.Hsml * newtonFac prm.DesNumNgb p.NumNgb p.DhsmlDensityFactor
       else p.Hsml * 1.26)
     else p.Hsml * 1.26)
  else if 0 < R ∧ L = 0 then
    (if p.ptype = 0 ∧ |p.NumNgb - prm.DesNumNgb| < 0.5 * prm.DesNumNgb then
      (if 1 / 1.26 < newtonFac prm.DesNumNgb p.NumNgb p.DhsmlDensityFactor then
        p.Hsml * newtonFac prm.DesNumNgb p.NumNgb p.DhsmlDensityFactor
       else p.Hsml / 1.26)
     else p.Hsml / 1.26)
  else p.Hsml

/-- Result of one density_check_neighbours call: the updated particle and
bracket, plus the endrun code when the source call would abort. -/
structure CheckResult where
  p : Particle
  Left : ℝ
  Right : ℝ
  err : Option ℕ

/-- density_check_neighbours (src/density.c lines 604-704, baseline build:
desnumngb = All.DesNumNgb, no BLACK_HOLES adjustment). -/
noncomputable def density_check_neighbours (prm : DensityParams) (p : Particle)
    (L R : ℝ) : CheckResult :=
  if p.NumNgb < prm.DesNumNgb - prm.MaxNumNgbDeviation ∨
      (prm.DesNumNgb + prm.MaxNumNgbDeviation < p.NumNgb ∧
        1.01 * prm.MinGasHsml < p.Hsml) then
    if p.DensityIterationDone then
      ⟨p, L, R, some 999993⟩
    else if 0 < L ∧ 0 < R ∧ R - L < 1.0e-3 * L then
      ⟨{ p with DensityIterationDone := true }, L, R, none⟩
    else if (bracketUpdate prm p L R).2 = 0 ∧ (bracketUpdate prm p L R).1 = 0 then
      ⟨p, (bracketUpdate prm p L R).1, (bracketUpdate prm p L R).2, some 8188⟩
    else
      ⟨{ p with Hsml :=
          if hsmlProposal prm p (bracketUpdate prm p L R).1 (bracketUpdate prm p L R).2 <
              prm.MinGasHsml then prm.MinGasHsml
          else hsmlProposal prm p (bracketUpdate prm p L R).1 (bracketUpdate prm p L R).2 },
        (bracketUpdate prm p L R).1, (bracketUpdate prm p L R).2, none⟩
  else
    ⟨{ p with DensityIterationDone := true }, L, R, none⟩

/-- The DONE predicate as the specification states it: neighbour count
within tolerance, or overfull at the minimum smoothing length, or a
collapsed bracket. -/
def doneSpec (prm : DensityParams) (p : Particle) (L R : ℝ) : Prop :=
  |p.NumNgb - prm.DesNumNgb| ≤ prm.MaxNumNgbDeviation ∨
  (prm.DesNumNgb + prm.MaxNumNgbDeviation < p.NumNgb ∧
    p.Hsml ≤ 1.01 * prm.MinGasHsml) ∨
  (0 < L ∧ 0 < R ∧ R - L < 1.0e-3 * L)

/-- State carried per particle slot across outer density iterations. -/
structure PassState where
  p : Particle
  Left : ℝ
  Right : ℝ

/-- One pass of the outer density loop acting on a single particle slot
(src/density.c lines 172-205): particles in the treewalk queue
(density_isactive) receive fresh treewalk accumulators (abstracted by tw),
then density_post_process and density_check_neighbours run; every other
particle is untouched. -/
noncomputable def density_pass (prm : DensityParams) (dt_entr : ℝ)
    (tw : PassState → Particle) (st : PassState) : PassState :=
  if density_isactive st.p then
    let r := density_check_neighbours prm
      (density_post_process dt_entr (tw st)) st.Left st.Right
    ⟨r.p, r.Left, r.Right⟩
  else st

/-- Exit mode of the outer do-while loop of density(). -/
inductive DensityExit where
  | normal : ℕ → DensityExit
  | fatal : ℕ → DensityExit
deriving DecidableEq

/-- The outer do-while loop of density() (src/density.c lines 172-237):
pass k ends with a global reduction of the number ntot of particles not yet
marked done; while ntot > 0 the iteration counter is incremented and
endrun(1155) fires once it exceeds MAXITER.  ntotOf k abstracts the global
count left after pass k; the iteration counter coincides with the pass
index. -/
def density_outer_loop (ntotOf : ℕ → ℕ) (maxiter k : ℕ) : DensityExit :=
  if ntotOf k = 0 then .normal k
  else if h : maxiter < k + 1 then .fatal 1155
  else density_outer_loop ntotOf maxiter (k + 1)
termination_by maxiter + 1 - k
decreasing_by omega

/-- Squared gradient norm accumulated by local_slopelimiter. -/
def gradNorm2 (g : ℝ × ℝ × ℝ) : ℝ := g.1 ^ 2 + g.2.1 ^ 2 + g.2.2 ^ 2

/-- Componentwise rescaling of a gradient, as the grad[k] *= cfac loop. -/
def gradScale (g : ℝ × ℝ × ℝ) (c : ℝ) : ℝ × ℝ × ℝ :=
  (g.1 * c, g.2.1 * c, g.2.2 * c)

/-- The factor the source multiplies into cfac
(src/libgadget/mfm/gradients.c lines 206-215): with a positive overshoot
tolerance, DMIN(abs_min + shoot_tol*abs_max, abs_max); otherwise abs_min. -/
noncomputable def slopeMult (valmax valmin shoot_tol : ℝ) : ℝ :=
  let fabs_max := |valmax|
  let fabs_min := |valmin|
  let abs_min := min fabs_max fabs_min
  if 0 < shoot_tol then
    min (abs_min + shoot_tol * max fabs_max fabs_min) (max fabs_max fabs_min)
  else abs_min

/-- local_slopelimiter (src/libgadget/mfm/gradients.c lines 198-218). -/
noncomputable def local_slopelimiter (grad : ℝ × ℝ × ℝ)
    (valmax valmin alim h shoot_tol : ℝ) : ℝ × ℝ × ℝ :=
  let d_abs := gradNorm2 grad
  if 0 < d_abs then
    let cfac := 1 / (alim * h * Real.sqrt d_abs) * slopeMult valmax valmin shoot_tol
    if cfac < 1 then gradScale grad cfac else grad
  else grad

/-- The slope limiter exactly as the specification text writes it:
c = (1/(alim*h*norm g)) * (M + shoot_tol*A when shoot_tol > 0, else M),
with M, A the smaller and larger envelope magnitudes. -/
noncomputable def slopelimiter_claimC4 (grad : ℝ × ℝ × ℝ)
    (valmax valmin alim h shoot_tol : ℝ) : ℝ × ℝ × ℝ :=
  let gnorm := Real.sqrt (gradNorm2 grad)
  if gnorm = 0 then grad
  else
    let M := min |valmax| |valmin|
    let A := max |valmax| |valmin|
    let c := 1 / (alim * h * gnorm) *
      (if 0 < shoot_tol then M + shoot_tol * A else M)
    if c < 1 then gradScale grad c else grad

/-- The slope limiter as the claim must be amended: the overshoot-tolerant
envelope is capped at A, c = (1/(alim*h*norm g)) *
(min (M + shoot_tol*A) A when shoot_tol > 0, else M). -/
noncomputable def slopelimiter_amendedC4 (grad : ℝ × ℝ × ℝ)
    (valmax valmin alim h shoot_tol : ℝ) : ℝ × ℝ × ℝ :=
  let gnorm := Real.sqrt (gradNorm2 grad)
  if gnorm = 0 then grad
  else
    let M := min |valmax| |valmin|
    let A := max |valmax| |valmin|
    let c := 1 / (alim * h * gnorm) *
      (if 0 < shoot_tol then min (M + shoot_tol * A) A else M)
    if c < 1 then gradScale grad c else grad

/-- Per-particle state read by construct_gradient: the condition number of
the geometry matrix, the SPH fallback scale ingredients, and the 3x3
geometry matrix NV_T itself. -/
structure GradParticle where
  ConditionNumber : ℝ
  DhsmlNgbFactor : ℝ
  Density : ℝ
  NV_T : Matrix (Fin 3) (Fin 3) ℝ

/-- The SHOULD_I_USE_SPH_GRADIENTS macro
(src/libgadget/mfm/gradients.c line 30); danger stands for the
CONDITION_NUMBER_DANGER constant defined outside this file's sources. -/
noncomputable def SHOULD_I_USE_SPH_GRADIENTS (danger cond : ℝ) : ℕ :=
  if danger < cond then 1 else 0

/-- construct_gradient (src/libgadget/mfm/gradients.c lines 222-235). -/
noncomputable def construct_gradient (danger : ℝ) (sp : GradParticle)
    (grad : Fin 3 → ℝ) : Fin 3 → ℝ :=
  if SHOULD_I_USE_SPH_GRADIENTS danger sp.ConditionNumber ≠ 0 then
    fun k => grad k * (sp.DhsmlNgbFactor / sp.Density)
  else
    fun k => sp.NV_T k 0 * grad 0 + sp.NV_T k 1 * grad 1 + sp.NV_T k 2 * grad 2

/-- A concrete particle used by the witness theorems: gas, unit smoothing
length, 20 effective neighbours, unit density and factor. -/
noncomputable def pEx : Particle :=
  ⟨0, 1, 20, 1, 1, 3, 0, 0, 0, 0, 1, 0, 0, false⟩

/-- Concrete density parameters used by the witness theorems. -/
noncomputable def prmEx : DensityParams := ⟨32, 2, 1 / 100⟩

/-- A concrete already-converged particle used by the frame witness. -/
noncomputable def pDoneEx : Particle :=
  ⟨0, 1, 32, 1, 1, 3, 0, 0, 0, 0, 1, 0, 0, true⟩

/-- A concrete gradient-phase particle with a safe condition number. -/
noncomputable def gpEx : GradParticle :=
  ⟨50, 2, 4, Matrix.of ![![1, 0, 2], ![0, 1, 0], ![0, 0, 1]]⟩

/-- A concrete gas particle with zero accumulated density (no neighbours
found), used by the witness for C9. -/
noncomputable def pZeroEx : Particle :=
  ⟨0, 1, 0, 0, -3, 5, 1, 1, 1, 7, 1, 0, 0, false⟩

/-! Theorems.  Helper lemmas come first, then one theorem per claim with
its witness. -/

/-- The conditional minimum-clamp of the source, if a less than b then b
else a, is the maximum of the two. -/
theorem ite_lt_clamp_eq_max (a b : ℝ) : (if a < b then b else a) = max a b := by
  split_ifs with h
  · exact (max_eq_right h.le).symm
  · exact (max_eq_left (not_lt.mp h)).symm

/-- Claim C5: construct_gradient left-multiplies the accumulated gradient by
the NV_T matrix when the condition number is at or below the danger
threshold, and otherwise scales every component by
DhsmlNgbFactor / Density. -/
theorem construct_gradient_cases (danger : ℝ) (sp : GradParticle)
    (grad : Fin 3 → ℝ) :
    (sp.ConditionNumber ≤ danger →
      construct_gradient danger sp grad = sp.NV_T.mulVec grad) ∧
    (danger < sp.ConditionNumber →
      construct_gradient danger sp grad =
        fun k => sp.DhsmlNgbFactor / sp.Density * grad k) := by
  constructor
  · intro hle
    have h0 : SHOULD_I_USE_SPH_GRADIENTS danger sp.ConditionNumber = 0 := by
      unfold SHOULD_I_USE_SPH_GRADIENTS
      rw [if_neg (not_lt.mpr hle)]
    unfold construct_gradient
    rw [h0, if_neg (by simp)]
    funext k
    simp [Matrix.mulVec, Matrix.dotProduct, Fin.sum_univ_three]
  · intro hlt
    have h0 : SHOULD_I_USE_SPH_GRADIENTS danger sp.ConditionNumber = 1 := by
      unfold SHOULD_I_USE_SPH_GRADIENTS
      rw [if_pos hlt]
    unfold construct_gradient
    rw [h0, if_pos (by simp)]
    funext k
    exact mul_comm _ _

/-- Witness for C5 at a concrete particle and gradient: the condition
number 50 is below the danger threshold 100, so the matrix estimator is
taken. -/
theorem construct_gradient_cases_w :
    construct_gradient 100 gpEx ![1, 2, 3] = gpEx.NV_T.mulVec ![1, 2, 3] :=
  (construct_gradient_cases 100 gpEx ![1, 2, 3]).1 (by norm_num [gpEx])

/-- Claim C6: for a gas particle with positive density, the raw dρ/dh
accumulator is rescaled by Hsml/(NUMDIMS*Density) and the stored factor
becomes 1/(1+term) when the term exceeds -0.9, and exactly 1 otherwise. -/
theorem density_post_process_factor (dt_entr : ℝ) (p : Particle)
    (hgas : p.ptype = 0) (hrho : 0 < p.Density) :
    (-0.9 < p.DhsmlDensityFactor * (p.Hsml / (NUMDIMS * p.Density)) →
      (density_post_process dt_entr p).DhsmlDensityFactor =
        1 / (1 + p.DhsmlDensityFactor * (p.Hsml / (NUMDIMS * p.Density)))) ∧
    (p.DhsmlDensityFactor * (p.Hsml / (NUMDIMS * p.Density)) ≤ -0.9 →
      (density_post_process dt_entr p).DhsmlDensityFactor = 1) := by
  constructor
  · intro hgt
    simp [density_post_process, hgas, hrho, hgt]
  · intro hle
    simp [density_post_process, hgas, hrho, not_lt.mpr hle]

/-- Witness for C6 at a concrete gas particle: term = 1 * (1/(3*1)) = 1/3
which exceeds -0.9. -/
theorem density_post_process_factor_w :
    (density_post_process 0 pEx).DhsmlDensityFactor =
      1 / (1 + pEx.DhsmlDensityFactor * (pEx.Hsml / (NUMDIMS * pEx.Density))) :=
  (density_post_process_factor 0 pEx (by norm_num [pEx]) (by norm_num [pEx])).1
    (by norm_num [pEx, NUMDIMS])

/-- Claim C9: for a gas particle whose accumulated density is not strictly
positive, density_post_process leaves DivVel, CurlVel and the raw
DhsmlDensityFactor accumulator untouched (no density normalisation is
performed). -/
theorem density_post_process_skips_nonpositive (dt_entr : ℝ) (p : Particle)
    (hgas : p.ptype = 0) (hrho : ¬ 0 < p.Density) :
    (density_post_process dt_entr p).DivVel = p.DivVel ∧
    (density_post_process dt_entr p).CurlVel = p.CurlVel ∧
    (density_post_process dt_entr p).DhsmlDensityFactor =
      p.DhsmlDensityFactor := by
  refine ⟨?_, ?_, ?_⟩ <;> simp [density_post_process, hgas, hrho]

/-- Witness for C9 at a zero-density gas particle. -/
theorem density_post_process_skips_nonpositive_w :
    (density_post_process 0 pZeroEx).DivVel = pZeroEx.DivVel ∧
    (density_post_process 0 pZeroEx).CurlVel = pZeroEx.CurlVel ∧
    (density_post_process 0 pZeroEx).DhsmlDensityFactor =
      pZeroEx.DhsmlDensityFactor :=
  density_post_process_skips_nonpositive 0 pZeroEx (by norm_num [pZeroEx])
    (by norm_num [pZeroEx])

/-- Claim C10: once DensityIterationDone is set, density_isactive returns
false, so every further pass of the density loop leaves the particle slot
(smoothing length, density, bracket, everything) unchanged. -/
theorem density_pass_frame (prm : DensityParams) (dt_entr : ℝ)
    (tw : PassState → Particle) (st : PassState)
    (hdone : st.p.DensityIterationDone = true) :
    density_isactive st.p = false ∧
    ∀ n : ℕ, (density_pass prm dt_entr tw)^[n] st = st := by
  have hact : density_isactive st.p = false := by
    unfold density_isactive
    rw [hdone]
    simp
  refine ⟨hact, ?_⟩
  have hfix : density_pass prm dt_entr tw st = st := by
    unfold density_pass
    rw [hact]
    simp
  intro n
  exact Function.iterate_fixed hfix n

/-- Witness for C10: a converged particle slot is a fixed point of five
further passes. -/
theorem density_pass_frame_w :
    density_isactive pDoneEx = false ∧
    (density_pass prmEx 0 (fun _ => pEx))^[5] ⟨pDoneEx, 1, 2⟩ = ⟨pDoneEx, 1, 2⟩ :=
  ⟨(density_pass_frame prmEx 0 (fun _ => pEx) ⟨pDoneEx, 1, 2⟩ rfl).1,
   (density_pass_frame prmEx 0 (fun _ => pEx) ⟨pDoneEx, 1, 2⟩ rfl).2 5⟩

/-- If every pass up to MAXITER leaves unconverged particles, the outer
loop ends in endrun(1155). -/
theorem density_outer_loop_fatal_aux (ntotOf : ℕ → ℕ) (maxiter : ℕ) :
    ∀ n k, maxiter + 1 - k ≤ n → k ≤ maxiter →
      (∀ j, k ≤ j → j ≤ maxiter → 0 < ntotOf j) →
      density_outer_loop ntotOf maxiter k = .fatal 1155 := by
  intro n
  induction n with
  | zero =>
    intro k hk hkm _
    omega
  | succ n ih =>
    intro k hk hkm hpos
    rw [density_outer_loop]
    rw [if_neg (hpos k le_rfl hkm).ne']
    by_cases h2 : maxiter < k + 1
    · rw [dif_pos h2]
    · rw [dif_neg h2]
      exact ih (k + 1) (by omega) (by omega) (fun j hj hjm => hpos j (by omega) hjm)

/-- If some pass at or before MAXITER reports zero unconverged particles,
the outer loop exits normally. -/
theorem density_outer_loop_normal_aux (ntotOf : ℕ → ℕ) (maxiter : ℕ) :
    ∀ n k, maxiter + 1 - k ≤ n →
      (∃ j, k ≤ j ∧ j ≤ maxiter ∧ ntotOf j = 0) →
      ∃ j, j ≤ maxiter ∧ density_outer_loop ntotOf maxiter k = .normal j := by
  intro n
  induction n with
  | zero =>
    rintro k hk ⟨j, hj1, hj2, -⟩
    omega
  | succ n ih =>
    rintro k hk ⟨j, hj1, hj2, hj0⟩
    rw [density_outer_loop]
    by_cases h1 : ntotOf k = 0
    · exact ⟨k, by omega, by rw [if_pos h1]⟩
    · rw [if_neg h1]
      have hjk : k + 1 ≤ j := by
        rcases Nat.eq_or_lt_of_le hj1 with he | hl
        · exact absurd hj0 (he ▸ h1)
        · omega
      by_cases h2 : maxiter < k + 1
      · omega
      · rw [dif_neg h2]
        exact ih (k + 1) (by omega) ⟨j, hjk, hj2, hj0⟩

/-- Claim C8: the outer density iteration repeats while the global count of
unconverged particles is nonzero; if every pass through MAXITER still
leaves some, the loop ends in endrun(1155) rather than returning, and as
soon as the count reaches zero it exits normally. -/
theorem density_outer_loop_exit (ntotOf : ℕ → ℕ) (maxiter : ℕ) :
    ((∀ k, k ≤ maxiter → 0 < ntotOf k) →
      density_outer_loop ntotOf maxiter 0 = .fatal 1155) ∧
    ((∃ k, k ≤ maxiter ∧ ntotOf k = 0) →
      ∃ j, j ≤ maxiter ∧ density_outer_loop ntotOf maxiter 0 = .normal j) := by
  constructor
  · intro hpos
    exact density_outer_loop_fatal_aux ntotOf maxiter (maxiter + 1) 0 (by omega)
      (by omega) (fun j _ hjm => hpos j hjm)
  · rintro ⟨k, hk, h0⟩
    exact density_outer_loop_normal_aux ntotOf maxiter (maxiter + 1) 0 (by omega)
      ⟨k, Nat.zero_le k, hk, h0⟩

/-- Witness for C8: with every pass leaving one unconverged particle and
MAXITER = 2, the loop is fatal with code 1155. -/
theorem density_outer_loop_exit_w :
    density_outer_loop (fun _ => 1) 2 0 = DensityExit.fatal 1155 :=
  (density_outer_loop_exit (fun _ => 1) 2).1 (fun _ _ => Nat.one_pos)

/-- Unfolding of local_slopelimiter with its let bindings expanded. -/
theorem local_slopelimiter_eq (grad : ℝ × ℝ × ℝ)
    (valmax valmin alim h shoot_tol : ℝ) :
    local_slopelimiter grad valmax valmin alim h shoot_tol =
      if 0 < gradNorm2 grad then
        (if 1 / (alim * h * Real.sqrt (gradNorm2 grad)) *
            slopeMult valmax valmin shoot_tol < 1 then
          gradScale grad (1 / (alim * h * Real.sqrt (gradNorm2 grad)) *
            slopeMult valmax valmin shoot_tol)
         else grad)
      else grad := rfl

/-- The envelope factor multiplied into cfac is never negative. -/
theorem slopeMult_nonneg (valmax valmin shoot_tol : ℝ) :
    0 ≤ slopeMult valmax valmin shoot_tol := by
  have h1 : (0 : ℝ) ≤ min |valmax| |valmin| := le_min (abs_nonneg _) (abs_nonneg _)
  have h2 : (0 : ℝ) ≤ max |valmax| |valmin| :=
    (abs_nonneg valmax).trans (le_max_left _ _)
  unfold slopeMult
  split_ifs with h
  · exact le_min (by nlinarith) h2
  · exact h1

/-- Rescaling the gradient rescales its squared norm by the square. -/
theorem gradNorm2_gradScale (g : ℝ × ℝ × ℝ) (c : ℝ) :
    gradNorm2 (gradScale g c) = c ^ 2 * gradNorm2 g := by
  unfold gradNorm2 gradScale
  ring

/-- Claim C7: the slope limiter is idempotent: a second application with the
same envelopes, aggressiveness, length and tolerance returns the first
application's output unchanged. -/
theorem local_slopelimiter_idem (grad : ℝ × ℝ × ℝ)
    (valmax valmin alim h shoot_tol : ℝ) (hpos : 0 < alim * h) :
    local_slopelimiter (local_slopelimiter grad valmax valmin alim h shoot_tol)
      valmax valmin alim h shoot_tol =
    local_slopelimiter grad valmax valmin alim h shoot_tol := by
  by_cases hd : 0 < gradNorm2 grad
  case neg =>
    have h1 : local_slopelimiter grad valmax valmin alim h shoot_tol = grad := by
      rw [local_slopelimiter_eq, if_neg hd]
    rw [h1, local_slopelimiter_eq, if_neg hd]
  case pos =>
    have hs : 0 < Real.sqrt (gradNorm2 grad) := Real.sqrt_pos.mpr hd
    have hm : 0 ≤ slopeMult valmax valmin shoot_tol :=
      slopeMult_nonneg valmax valmin shoot_tol
    by_cases hcl : 1 / (alim * h * Real.sqrt (gradNorm2 grad)) *
        slopeMult valmax valmin shoot_tol < 1
    case neg =>
      have h1 : local_slopelimiter grad valmax valmin alim h shoot_tol = grad := by
        rw [local_slopelimiter_eq, if_pos hd, if_neg hcl]
      rw [h1, local_slopelimiter_eq, if_pos hd, if_neg hcl]
    case pos =>
      have hc0 : 0 ≤ 1 / (alim * h * Real.sqrt (gradNorm2 grad)) *
          slopeMult valmax valmin shoot_tol := by
        have : 0 < alim * h * Real.sqrt (gradNorm2 grad) := by positivity
        positivity
      have h1 : local_slopelimiter grad valmax valmin alim h shoot_tol =
          gradScale grad (1 / (alim * h * Real.sqrt (gradNorm2 grad)) *
            slopeMult valmax valmin shoot_tol) := by
        rw [local_slopelimiter_eq, if_pos hd, if_pos hcl]
      rw [h1]
      rcases eq_or_lt_of_le hc0 with hc0' | hc0'
      · have hz : gradNorm2 (gradScale grad (1 / (alim * h *
            Real.sqrt (gradNorm2 grad)) * slopeMult valmax valmin shoot_tol)) = 0 := by
          rw [gradNorm2_gradScale, ← hc0']
          ring
        rw [local_slopelimiter_eq, hz]
        norm_num
      · set c := 1 / (alim * h * Real.sqrt (gradNorm2 grad)) *
          slopeMult valmax valmin shoot_tol with hc
        have hn2 : gradNorm2 (gradScale grad c) = c ^ 2 * gradNorm2 grad :=
          gradNorm2_gradScale grad c
        have hn2pos : 0 < gradNorm2 (gradScale grad c) := by
          rw [hn2]
          positivity
        have hsqrt : Real.sqrt (gradNorm2 (gradScale grad c)) =
            c * Real.sqrt (gradNorm2 grad) := by
          rw [hn2, Real.sqrt_mul (sq_nonneg c), Real.sqrt_sq hc0'.le]
        have hA : (0 : ℝ) < alim * h * Real.sqrt (gradNorm2 grad) := by positivity
        have hmpos : 0 < slopeMult valmax valmin shoot_tol := by
          rw [hc] at hc0'
          rcases mul_pos_iff.mp hc0' with ⟨-, hm2⟩ | ⟨hneg, -⟩
          · exact hm2
          · exact absurd (one_div_pos.mpr hA) (not_lt.mpr hneg.le)
        have hAc : alim * h * (c * Real.sqrt (gradNorm2 grad)) =
            slopeMult valmax valmin shoot_tol := by
          rw [hc]
          have halim : alim ≠ 0 := left_ne_zero_of_mul hpos.ne'
          have hh2 : h ≠ 0 := right_ne_zero_of_mul hpos.ne'
          field_simp
          ring
        have hcfac1 : 1 / (alim * h * Real.sqrt (gradNorm2 (gradScale grad c))) *
            slopeMult valmax valmin shoot_tol = 1 := by
          rw [hsqrt, hAc, one_div, inv_mul_cancel₀ hmpos.ne']
        rw [local_slopelimiter_eq, if_pos hn2pos, hcfac1]
        norm_num

/-- Witness for C7: applying the limiter twice at a concrete gradient and
envelope equals applying it once. -/
theorem local_slopelimiter_idem_w :
    local_slopelimiter (local_slopelimiter (1, 0, 0) 1 1 1 4 1) 1 1 1 4 1 =
      local_slopelimiter (1, 0, 0) 1 1 1 4 1 :=
  local_slopelimiter_idem (1, 0, 0) 1 1 1 4 1 (by norm_num)

/-- Counterexample for claim C4 as stated: with both envelope magnitudes 1,
tolerance 1, aggressiveness 1 and length 4 on the unit gradient, the spec
formula scales by (M + tol*A)/4 = 1/2 but the code caps the envelope at A
and scales by 1/4. -/
theorem slopelimiter_claimC4_false :
    local_slopelimiter (1, 0, 0) 1 1 1 4 1 ≠
      slopelimiter_claimC4 (1, 0, 0) 1 1 1 4 1 := by
  have hL : local_slopelimiter (1, 0, 0) 1 1 1 4 1 = (1 / 4, 0, 0) := by
    simp only [local_slopelimiter, slopeMult, gradNorm2, gradScale]
    norm_num [Real.sqrt_one]
  have hR : slopelimiter_claimC4 (1, 0, 0) 1 1 1 4 1 = (1 / 2, 0, 0) := by
    simp only [slopelimiter_claimC4, gradNorm2, gradScale]
    norm_num [Real.sqrt_one]
  rw [hL, hR]
  intro hcon
  have h1 := congrArg Prod.fst hcon
  norm_num at h1

/-- Claim C4 as amended: local_slopelimiter leaves a zero gradient
unchanged and otherwise scales by
c = (1/(alim*h*norm g)) * (min (M + tol*A) A when tol > 0, else M)
exactly when c < 1, leaving the gradient unchanged when c is at least 1. -/
theorem local_slopelimiter_amended (grad : ℝ × ℝ × ℝ)
    (valmax valmin alim h shoot_tol : ℝ) :
    local_slopelimiter grad valmax valmin alim h shoot_tol =
      slopelimiter_amendedC4 grad valmax valmin alim h shoot_tol := by
  have hnn : 0 ≤ gradNorm2 grad := by
    unfold gradNorm2
    positivity
  by_cases hd : 0 < gradNorm2 grad
  · have hs : Real.sqrt (gradNorm2 grad) ≠ 0 := (Real.sqrt_pos.mpr hd).ne'
    rw [local_slopelimiter_eq]
    rw [if_pos hd]
    unfold slopelimiter_amendedC4 slopeMult
    rw [if_neg hs]
  · have h0 : gradNorm2 grad = 0 := le_antisymm (not_lt.mp hd) hnn
    rw [local_slopelimiter_eq, if_neg hd]
    unfold slopelimiter_amendedC4
    rw [h0, Real.sqrt_zero, if_pos rfl]

/-- The redo condition of density_check_neighbours is the negation of the
first two DONE disjuncts (tolerance met, or overfull at the floor). -/
theorem redo_iff (prm : DensityParams) (p : Particle)
    (hdev : 0 ≤ prm.MaxNumNgbDeviation) :
    (p.NumNgb < prm.DesNumNgb - prm.MaxNumNgbDeviation ∨
      (prm.DesNumNgb + prm.MaxNumNgbDeviation < p.NumNgb ∧
        1.01 * prm.MinGasHsml < p.Hsml)) ↔
    ¬(|p.NumNgb - prm.DesNumNgb| ≤ prm.MaxNumNgbDeviation ∨
      (prm.DesNumNgb + prm.MaxNumNgbDeviation < p.NumNgb ∧
        p.Hsml ≤ 1.01 * prm.MinGasHsml)) := by
  rw [abs_sub_le_iff]
  constructor
  · rintro (h | ⟨h1, h2⟩) hcon
    · rcases hcon with ⟨ha, hb⟩ | ⟨ha, hb⟩ <;> linarith
    · rcases hcon with ⟨ha, hb⟩ | ⟨ha, hb⟩ <;> linarith
  · intro hcon
    by_cases hN : p.NumNgb < prm.DesNumNgb - prm.MaxNumNgbDeviation
    · exact Or.inl hN
    · by_cases hH : 1.01 * prm.MinGasHsml < p.Hsml
      · refine Or.inr ⟨?_, hH⟩
        by_contra hle
        exact hcon (Or.inl ⟨by linarith, by linarith⟩)
      · exfalso
        by_cases hN2 : prm.DesNumNgb + prm.MaxNumNgbDeviation < p.NumNgb
        · exact hcon (Or.inr ⟨hN2, by linarith⟩)
        · exact hcon (Or.inl ⟨by linarith, by linarith⟩)

/-- With a positive smoothing length the updated bracket never has both
sides at zero (the endrun 8188 guard cannot fire). -/
theorem bracketUpdate_ne_zero (prm : DensityParams) (p : Particle) (L R : ℝ)
    (hh : 0 < p.Hsml) :
    ¬((bracketUpdate prm p L R).2 = 0 ∧ (bracketUpdate prm p L R).1 = 0) := by
  unfold bracketUpdate
  split_ifs with h1 h2 h3
  · rintro ⟨-, hL0⟩
    simp only at hL0
    have := le_max_left p.Hsml L
    linarith
  · rintro ⟨hR0, -⟩
    simp only at hR0
    linarith
  · rintro ⟨hR0, -⟩
    simp only at hR0
    exact h2 hR0
  · rintro ⟨hR0, -⟩
    simp only at hR0
    linarith

/-- Claim C1: with the done flag initially clear and a positive smoothing
length, density_check_neighbours sets DensityIterationDone exactly when the
DONE predicate of the specification holds (tolerance met, or overfull at
1.01 times the floor, or both bracket sides set with a collapsed gap), and
it never aborts. -/
theorem density_check_done_iff (prm : DensityParams) (p : Particle) (L R : ℝ)
    (hdone : p.DensityIterationDone = false) (hh : 0 < p.Hsml)
    (hdev : 0 ≤ prm.MaxNumNgbDeviation) :
    ((density_check_neighbours prm p L R).p.DensityIterationDone = true ↔
      doneSpec prm p L R) ∧
    (density_check_neighbours prm p L R).err = none := by
  have hne := bracketUpdate_ne_zero prm p L R hh
  unfold density_check_neighbours
  by_cases hredo : p.NumNgb < prm.DesNumNgb - prm.MaxNumNgbDeviation ∨
      (prm.DesNumNgb + prm.MaxNumNgbDeviation < p.NumNgb ∧
        1.01 * prm.MinGasHsml < p.Hsml)
  · rw [if_pos hredo, if_neg (by simp [hdone])]
    by_cases hcol : 0 < L ∧ 0 < R ∧ R - L < 1.0e-3 * L
    · rw [if_pos hcol]
      refine ⟨?_, rfl⟩
      show true = true ↔ doneSpec prm p L R
      simp only [true_iff]
      exact Or.inr (Or.inr hcol)
    · rw [if_neg hcol, if_neg hne]
      refine ⟨?_, rfl⟩
      show p.DensityIterationDone = true ↔ doneSpec prm p L R
      rw [hdone]
      constructor
      · intro hf
        exact absurd hf (by simp)
      · intro hds
        rcases hds with ha | hb | hc
        · exact absurd (Or.inl ha) ((redo_iff prm p hdev).mp hredo)
        · exact absurd (Or.inr hb) ((redo_iff prm p hdev).mp hredo)
        · exact absurd hc hcol
  · rw [if_neg hredo]
    refine ⟨?_, rfl⟩
    show true = true ↔ doneSpec prm p L R
    simp only [true_iff]
    have hab := not_not.mp (fun hn => hredo ((redo_iff prm p hdev).mpr hn))
    rcases hab with ha | hb
    · exact Or.inl ha
    · exact Or.inr (Or.inl hb)

/-- Witness for C1: the concrete particle has 20 effective neighbours
against a target of 32 with tolerance 2, so it is not done; the theorem
instantiates with the iff and the absence of an abort. -/
theorem density_check_done_iff_w :
    ((density_check_neighbours prmEx pEx 0 0).p.DensityIterationDone = true ↔
      doneSpec prmEx pEx 0 0) ∧
    (density_check_neighbours prmEx pEx 0 0).err = none :=
  density_check_done_iff prmEx pEx 0 0 rfl (by norm_num [pEx])
    (by norm_num [prmEx])

/-- In the redo case (done flag clear, spec DONE predicate false) the call
reduces to the bracket update, the proposed smoothing length and the floor
clamp. -/
theorem density_check_redo_eq (prm : DensityParams) (p : Particle) (L R : ℝ)
    (hdone : p.DensityIterationDone = false) (hh : 0 < p.Hsml)
    (hdev : 0 ≤ prm.MaxNumNgbDeviation) (hnd : ¬ doneSpec prm p L R) :
    density_check_neighbours prm p L R =
      ⟨{ p with Hsml :=
          if hsmlProposal prm p (bracketUpdate prm p L R).1 (bracketUpdate prm p L R).2 <
              prm.MinGasHsml then prm.MinGasHsml
          else hsmlProposal prm p (bracketUpdate prm p L R).1 (bracketUpdate prm p L R).2 },
        (bracketUpdate prm p L R).1, (bracketUpdate prm p L R).2, none⟩ := by
  have hredo : p.NumNgb < prm.DesNumNgb - prm.MaxNumNgbDeviation ∨
      (prm.DesNumNgb + prm.MaxNumNgbDeviation < p.NumNgb ∧
        1.01 * prm.MinGasHsml < p.Hsml) :=
    (redo_iff prm p hdev).mpr
      (fun hab => hnd (hab.elim Or.inl (fun hb => Or.inr (Or.inl hb))))
  have hncol : ¬(0 < L ∧ 0 < R ∧ R - L < 1.0e-3 * L) :=
    fun hc => hnd (Or.inr (Or.inr hc))
  have hne := bracketUpdate_ne_zero prm p L R hh
  unfold density_check_neighbours
  rw [if_pos hredo, if_neg (by simp [hdone]), if_neg hncol, if_neg hne]

/-- Claim C2: in the redo case the bracket is updated as the specification
says (Left raised to max(Left, h) on the low side; Right set to h when
unset and lowered to min(Right, h) otherwise), a doubly-positive bracket
yields the volume-midpoint cube root clamped at the floor, and the stored
smoothing length never drops below MinGasHsml. -/
theorem density_check_bracket (prm : DensityParams) (p : Particle) (L R : ℝ)
    (hdone : p.DensityIterationDone = false) (hh : 0 < p.Hsml)
    (hdev : 0 ≤ prm.MaxNumNgbDeviation) (hnd : ¬ doneSpec prm p L R) :
    (p.NumNgb < prm.DesNumNgb - prm.MaxNumNgbDeviation →
      (density_check_neighbours prm p L R).Left = max L p.Hsml ∧
      (density_check_neighbours prm p L R).Right = R) ∧
    (prm.DesNumNgb + prm.MaxNumNgbDeviation < p.NumNgb →
      (density_check_neighbours prm p L R).Left = L ∧
      (density_check_neighbours prm p L R).Right =
        (if R = 0 then p.Hsml else min R p.Hsml)) ∧
    (0 < (density_check_neighbours prm p L R).Left →
      0 < (density_check_neighbours prm p L R).Right →
      (density_check_neighbours prm p L R).p.Hsml =
        max ((0.5 * ((density_check_neighbours prm p L R).Left ^ 3 +
            (density_check_neighbours prm p L R).Right ^ 3)) ^ ((1 : ℝ) / 3))
          prm.MinGasHsml) ∧
    prm.MinGasHsml ≤ (density_check_neighbours prm p L R).p.Hsml := by
  have heq := density_check_redo_eq prm p L R hdone hh hdev hnd
  have hLeft : (density_check_neighbours prm p L R).Left =
      (bracketUpdate prm p L R).1 := by rw [heq]
  have hRight : (density_check_neighbours prm p L R).Right =
      (bracketUpdate prm p L R).2 := by rw [heq]
  have hHsml : (density_check_neighbours prm p L R).p.Hsml =
      (if hsmlProposal prm p (bracketUpdate prm p L R).1
            (bracketUpdate prm p L R).2 < prm.MinGasHsml then prm.MinGasHsml
       else hsmlProposal prm p (bracketUpdate prm p L R).1
         (bracketUpdate prm p L R).2) := by rw [heq]
  refine ⟨?_, ?_, ?_, ?_⟩
  · intro hlt
    rw [hLeft, hRight]
    unfold bracketUpdate
    rw [if_pos hlt]
    exact ⟨max_comm p.Hsml L, rfl⟩
  · intro hgt
    have hnlt : ¬ p.NumNgb < prm.DesNumNgb - prm.MaxNumNgbDeviation := by
      intro hc
      linarith
    rw [hLeft, hRight]
    unfold bracketUpdate
    rw [if_neg hnlt]
    by_cases hR : R = 0
    · rw [if_neg (not_not_intro hR), if_pos hR]
      exact ⟨rfl, rfl⟩
    · rw [if_pos hR, if_neg hR]
      refine ⟨rfl, ?_⟩
      by_cases hpr : p.Hsml < R
      · simp only
        rw [if_pos hpr]
        exact (min_eq_right hpr.le).symm
      · simp only
        rw [if_neg hpr]
        exact (min_eq_left (not_lt.mp hpr)).symm
  · intro hL hR
    rw [hLeft] at hL
    rw [hRight] at hR
    rw [hHsml, hLeft, hRight, ite_lt_clamp_eq_max]
    have hp : hsmlProposal prm p (bracketUpdate prm p L R).1
        (bracketUpdate prm p L R).2 =
        (0.5 * ((bracketUpdate prm p L R).1 ^ 3 +
          (bracketUpdate prm p L R).2 ^ 3)) ^ ((1 : ℝ) / 3) := by
      unfold hsmlProposal
      rw [if_pos ⟨hR, hL⟩]
    rw [hp]
  · rw [hHsml, ite_lt_clamp_eq_max]
    exact le_max_right _ _

/-- Witness for C2 at the concrete under-populated particle: all four
conjuncts of the bracket-update contract, instantiated. -/
theorem density_check_bracket_w :
    (pEx.NumNgb < prmEx.DesNumNgb - prmEx.MaxNumNgbDeviation →
      (density_check_neighbours prmEx pEx 0 0).Left = max 0 pEx.Hsml ∧
      (density_check_neighbours prmEx pEx 0 0).Right = 0) ∧
    (prmEx.DesNumNgb + prmEx.MaxNumNgbDeviation < pEx.NumNgb →
      (density_check_neighbours prmEx pEx 0 0).Left = 0 ∧
      (density_check_neighbours prmEx pEx 0 0).Right =
        (if (0 : ℝ) = 0 then pEx.Hsml else min 0 pEx.Hsml)) ∧
    (0 < (density_check_neighbours prmEx pEx 0 0).Left →
      0 < (density_check_neighbours prmEx pEx 0 0).Right →
      (density_check_neighbours prmEx pEx 0 0).p.Hsml =
        max ((0.5 * ((density_check_neighbours prmEx pEx 0 0).Left ^ 3 +
            (density_check_neighbours prmEx pEx 0 0).Right ^ 3)) ^ ((1 : ℝ) / 3))
          prmEx.MinGasHsml) ∧
    prmEx.MinGasHsml ≤ (density_check_neighbours prmEx pEx 0 0).p.Hsml :=
  density_check_bracket prmEx pEx 0 0 rfl (by norm_num [pEx])
    (by norm_num [prmEx]) (by norm_num [doneSpec, prmEx, pEx])

/-- If the low-side branch fired, the updated Left is positive. -/
theorem bracketUpdate_fst_pos (prm : DensityParams) (p : Particle) (L R : ℝ)
    (hh : 0 < p.Hsml)
    (hlt : p.NumNgb < prm.DesNumNgb - prm.MaxNumNgbDeviation) :
    0 < (bracketUpdate prm p L R).1 := by
  unfold bracketUpdate
  rw [if_pos hlt]
  exact lt_of_lt_of_le hh (le_max_left _ _)

/-- If the low-side branch did not fire, the updated Right is positive,
given a positive smoothing length and a nonnegative incoming Right. -/
theorem bracketUpdate_snd_pos (prm : DensityParams) (p : Particle) (L R : ℝ)
    (hh : 0 < p.Hsml) (hR0 : 0 ≤ R)
    (hnlt : ¬ p.NumNgb < prm.DesNumNgb - prm.MaxNumNgbDeviation) :
    0 < (bracketUpdate prm p L R).2 := by
  unfold bracketUpdate
  rw [if_neg hnlt]
  split_ifs with h2 h3
  · exact hh
  · exact lt_of_le_of_ne hR0 (Ne.symm h2)
  · exact hh

/-- With exactly one bracket side set after the update, the proposed
smoothing length is the previous one times a multiplier confined to
[1/1.26, 1.26]: the clamped Newton factor when the particle is gas and
close to the target count, and exactly 1.26 or its inverse otherwise. -/
theorem hsmlProposal_one_sided (prm : DensityParams) (p : Particle) (L R : ℝ)
    (hh : 0 < p.Hsml) (hdev : 0 ≤ prm.MaxNumNgbDeviation)
    (hdes : 0 < prm.DesNumNgb) (hF : 0 ≤ p.DhsmlDensityFactor) (hR0 : 0 ≤ R)
    (hredo : p.NumNgb < prm.DesNumNgb - prm.MaxNumNgbDeviation ∨
      (prm.DesNumNgb + prm.MaxNumNgbDeviation < p.NumNgb ∧
        1.01 * prm.MinGasHsml < p.Hsml))
    (hside : (0 < (bracketUpdate prm p L R).1 ∧
        (bracketUpdate prm p L R).2 = 0) ∨
      ((bracketUpdate prm p L R).1 = 0 ∧ 0 < (bracketUpdate prm p L R).2)) :
    (p.ptype = 0 ∧ |p.NumNgb - prm.DesNumNgb| < 0.5 * prm.DesNumNgb →
      hsmlProposal prm p (bracketUpdate prm p L R).1 (bracketUpdate prm p L R).2 =
        p.Hsml * min (max (newtonFac prm.DesNumNgb p.NumNgb
          p.DhsmlDensityFactor) (1 / 1.26)) 1.26) ∧
    (¬(p.ptype = 0 ∧ |p.NumNgb - prm.DesNumNgb| < 0.5 * prm.DesNumNgb) →
      hsmlProposal prm p (bracketUpdate prm p L R).1 (bracketUpdate prm p L R).2 =
        (if (bracketUpdate prm p L R).2 = 0 then p.Hsml * 1.26
         else p.Hsml / 1.26)) ∧
    (∃ m : ℝ, 1 / 1.26 ≤ m ∧ m ≤ 1.26 ∧
      hsmlProposal prm p (bracketUpdate prm p L R).1 (bracketUpdate prm p L R).2 =
        p.Hsml * m) := by
  rcases hside with ⟨hBL, hBR⟩ | ⟨hBL, hBR⟩
  · have hNlt : p.NumNgb < prm.DesNumNgb - prm.MaxNumNgbDeviation := by
      by_contra hc
      exact (bracketUpdate_snd_pos prm p L R hh hR0 hc).ne' hBR
    have hpEq : hsmlProposal prm p (bracketUpdate prm p L R).1
        (bracketUpdate prm p L R).2 =
        (if p.ptype = 0 ∧ |p.NumNgb - prm.DesNumNgb| < 0.5 * prm.DesNumNgb then
          (if newtonFac prm.DesNumNgb p.NumNgb p.DhsmlDensityFactor < 1.26 then
            p.Hsml * newtonFac prm.DesNumNgb p.NumNgb p.DhsmlDensityFactor
           else p.Hsml * 1.26)
         else p.Hsml * 1.26) := by
      unfold hsmlProposal
      rw [if_neg (fun hc => hc.1.ne' hBR), if_pos ⟨hBR, hBL⟩]
    by_cases hgc : p.ptype = 0 ∧ |p.NumNgb - prm.DesNumNgb| < 0.5 * prm.DesNumNgb
    · have hNpos : 0 < p.NumNgb := by
        have habs := abs_lt.mp hgc.2
        linarith [habs.1]
      have h3N : (0 : ℝ) < NUMDIMS * p.NumNgb := by
        simp only [NUMDIMS]
        linarith
      have hq : (p.NumNgb - prm.DesNumNgb) / (NUMDIMS * p.NumNgb) ≤ 0 :=
        div_nonpos_iff.mpr (Or.inr ⟨by linarith, h3N.le⟩)
      have hfac1 : 1 ≤ newtonFac prm.DesNumNgb p.NumNgb p.DhsmlDensityFactor := by
        unfold newtonFac
        nlinarith [mul_nonneg (neg_nonneg.mpr hq) hF]
      have hpN : hsmlProposal prm p (bracketUpdate prm p L R).1
          (bracketUpdate prm p L R).2 =
          p.Hsml * min (newtonFac prm.DesNumNgb p.NumNgb
            p.DhsmlDensityFactor) 1.26 := by
        rw [hpEq, if_pos hgc]
        by_cases hf : newtonFac prm.DesNumNgb p.NumNgb p.DhsmlDensityFactor < 1.26
        · rw [if_pos hf, min_eq_left hf.le]
        · rw [if_neg hf, min_eq_right (not_lt.mp hf)]
      refine ⟨fun _ => ?_, fun hn => absurd hgc hn, ?_⟩
      · rw [hpN,
          max_eq_left (le_trans (by norm_num : (1 : ℝ) / 1.26 ≤ 1) hfac1)]
      · exact ⟨min (newtonFac prm.DesNumNgb p.NumNgb p.DhsmlDensityFactor) 1.26,
          le_min (le_trans (by norm_num : (1 : ℝ) / 1.26 ≤ 1) hfac1) (by norm_num),
          min_le_right _ _, hpN⟩
    · have hp126 : hsmlProposal prm p (bracketUpdate prm p L R).1
          (bracketUpdate prm p L R).2 = p.Hsml * 1.26 := by
        rw [hpEq, if_neg hgc]
      refine ⟨fun hg => absurd hg hgc, fun _ => ?_,
        ⟨1.26, by norm_num, le_refl _, hp126⟩⟩
      rw [hp126, if_pos hBR]
  · have hNge : ¬ p.NumNgb < prm.DesNumNgb - prm.MaxNumNgbDeviation := by
      intro hc
      exact (bracketUpdate_fst_pos prm p L R hh hc).ne' hBL
    have hNgt : prm.DesNumNgb + prm.MaxNumNgbDeviation < p.NumNgb := by
      rcases hredo with hl | ⟨h1, -⟩
      · exact absurd hl hNge
      · exact h1
    have hpEq : hsmlProposal prm p (bracketUpdate prm p L R).1
        (bracketUpdate prm p L R).2 =
        (if p.ptype = 0 ∧ |p.NumNgb - prm.DesNumNgb| < 0.5 * prm.DesNumNgb then
          (if 1 / 1.26 < newtonFac prm.DesNumNgb p.NumNgb p.DhsmlDensityFactor then
            p.Hsml * newtonFac prm.DesNumNgb p.NumNgb p.DhsmlDensityFactor
           else p.Hsml / 1.26)
         else p.Hsml / 1.26) := by
      unfold hsmlProposal
      rw [if_neg (fun hc => hc.2.ne' hBL), if_neg (fun hc => hBR.ne' hc.1),
        if_pos ⟨hBR, hBL⟩]
    by_cases hgc : p.ptype = 0 ∧ |p.NumNgb - prm.DesNumNgb| < 0.5 * prm.DesNumNgb
    · have hNpos : 0 < p.NumNgb := by linarith
      have h3N : (0 : ℝ) < NUMDIMS * p.NumNgb := by
        simp only [NUMDIMS]
        linarith
      have hq : 0 ≤ (p.NumNgb - prm.DesNumNgb) / (NUMDIMS * p.NumNgb) :=
        div_nonneg (by linarith) h3N.le
      have hfacle : newtonFac prm.DesNumNgb p.NumNgb p.DhsmlDensityFactor ≤ 1 := by
        unfold newtonFac
        nlinarith [mul_nonneg hq hF]
      have hpN : hsmlProposal prm p (bracketUpdate prm p L R).1
          (bracketUpdate prm p L R).2 =
          p.Hsml * max (newtonFac prm.DesNumNgb p.NumNgb
            p.DhsmlDensityFactor) (1 / 1.26) := by
        rw [hpEq, if_pos hgc]
        by_cases hf : 1 / 1.26 < newtonFac prm.DesNumNgb p.NumNgb
            p.DhsmlDensityFactor
        · rw [if_pos hf, max_eq_left hf.le]
        · rw [if_neg hf, max_eq_right (not_lt.mp hf), mul_one_div]
      refine ⟨fun _ => ?_, fun hn => absurd hgc hn, ?_⟩
      · rw [hpN, min_eq_left (max_le (hfacle.trans (by norm_num)) (by norm_num))]
      · exact ⟨max (newtonFac prm.DesNumNgb p.NumNgb p.DhsmlDensityFactor)
            (1 / 1.26), le_max_right _ _,
          max_le (hfacle.trans (by norm_num)) (by norm_num), hpN⟩
    · have hp126 : hsmlProposal prm p (bracketUpdate prm p L R).1
          (bracketUpdate prm p L R).2 = p.Hsml / 1.26 := by
        rw [hpEq, if_neg hgc]
      refine ⟨fun hg => absurd hg hgc, fun _ => ?_,
        ⟨1 / 1.26, le_refl _, by norm_num, by rw [hp126, mul_one_div]⟩⟩
      rw [hp126, if_neg hBR.ne']

/-- Claim C3: with exactly one bracket side set after the update, a gas
particle close to the target count gets the Newton-like factor clamped to
[1/1.26, 1.26], so the stored smoothing length stays within a factor 1.26
of the previous one, while every other particle is multiplied or divided
by exactly 1.26 according to which side is unbracketed (the floor clamp
applying afterwards in all cases). -/
theorem density_check_one_sided (prm : DensityParams) (p : Particle) (L R : ℝ)
    (hdone : p.DensityIterationDone = false) (hh : 0 < p.Hsml)
    (hdev : 0 ≤ prm.MaxNumNgbDeviation) (hdes : 0 < prm.DesNumNgb)
    (hF : 0 ≤ p.DhsmlDensityFactor) (hR0 : 0 ≤ R)
    (hHm : prm.MinGasHsml ≤ p.Hsml) (hnd : ¬ doneSpec prm p L R)
    (hside : (0 < (bracketUpdate prm p L R).1 ∧
        (bracketUpdate prm p L R).2 = 0) ∨
      ((bracketUpdate prm p L R).1 = 0 ∧ 0 < (bracketUpdate prm p L R).2)) :
    (p.ptype = 0 ∧ |p.NumNgb - prm.DesNumNgb| < 0.5 * prm.DesNumNgb →
      (density_check_neighbours prm p L R).p.Hsml =
        max (p.Hsml * min (max (newtonFac prm.DesNumNgb p.NumNgb
          p.DhsmlDensityFactor) (1 / 1.26)) 1.26) prm.MinGasHsml) ∧
    (¬(p.ptype = 0 ∧ |p.NumNgb - prm.DesNumNgb| < 0.5 * prm.DesNumNgb) →
      (density_check_neighbours prm p L R).p.Hsml =
        max (if (bracketUpdate prm p L R).2 = 0 then p.Hsml * 1.26
          else p.Hsml / 1.26) prm.MinGasHsml) ∧
    p.Hsml / 1.26 ≤ (density_check_neighbours prm p L R).p.Hsml ∧
    (density_check_neighbours prm p L R).p.Hsml ≤ 1.26 * p.Hsml := by
  have heq := density_check_redo_eq prm p L R hdone hh hdev hnd
  have hHsml : (density_check_neighbours prm p L R).p.Hsml =
      (if hsmlProposal prm p (bracketUpdate prm p L R).1
            (bracketUpdate prm p L R).2 < prm.MinGasHsml then prm.MinGasHsml
       else hsmlProposal prm p (bracketUpdate prm p L R).1
         (bracketUpdate prm p L R).2) := by rw [heq]
  have hredo : p.NumNgb < prm.DesNumNgb - prm.MaxNumNgbDeviation ∨
      (prm.DesNumNgb + prm.MaxNumNgbDeviation < p.NumNgb ∧
        1.01 * prm.MinGasHsml < p.Hsml) :=
    (redo_iff prm p hdev).mpr
      (fun hab => hnd (hab.elim Or.inl (fun hb => Or.inr (Or.inl hb))))
  obtain ⟨hc1, hc2, m, hm1, hm2, hm3⟩ :=
    hsmlProposal_one_sided prm p L R hh hdev hdes hF hR0 hredo hside
  refine ⟨?_, ?_, ?_, ?_⟩
  · intro hgc
    rw [hHsml, ite_lt_clamp_eq_max, hc1 hgc]
  · intro hgcn
    rw [hHsml, ite_lt_clamp_eq_max, hc2 hgcn]
  · rw [hHsml, ite_lt_clamp_eq_max, hm3]
    have h1 : p.Hsml / 1.26 ≤ p.Hsml * m := by
      rw [← mul_one_div p.Hsml 1.26]
      exact mul_le_mul_of_nonneg_left hm1 hh.le
    exact h1.trans (le_max_left _ _)
  · rw [hHsml, ite_lt_clamp_eq_max, hm3]
    refine max_le ?_ ?_
    · calc p.Hsml * m ≤ p.Hsml * 1.26 := mul_le_mul_of_nonneg_left hm2 hh.le
        _ = 1.26 * p.Hsml := mul_comm _ _
    · linarith

/-- Witness for C3 at the concrete under-populated gas particle, whose
bracket after the update is one-sided (Left = 1, Right = 0). -/
theorem density_check_one_sided_w :
    (pEx.ptype = 0 ∧ |pEx.NumNgb - prmEx.DesNumNgb| < 0.5 * prmEx.DesNumNgb →
      (density_check_neighbours prmEx pEx 0 0).p.Hsml =
        max (pEx.Hsml * min (max (newtonFac prmEx.DesNumNgb pEx.NumNgb
          pEx.DhsmlDensityFactor) (1 / 1.26)) 1.26) prmEx.MinGasHsml) ∧
    (¬(pEx.ptype = 0 ∧ |pEx.NumNgb - prmEx.DesNumNgb| < 0.5 * prmEx.DesNumNgb) →
      (density_check_neighbours prmEx pEx 0 0).p.Hsml =
        max (if (bracketUpdate prmEx pEx 0 0).2 = 0 then pEx.Hsml * 1.26
          else pEx.Hsml / 1.26) prmEx.MinGasHsml) ∧
    pEx.Hsml / 1.26 ≤ (density_check_neighbours prmEx pEx 0 0).p.Hsml ∧
    (density_check_neighbours prmEx pEx 0 0).p.Hsml ≤ 1.26 * pEx.Hsml :=
  density_check_one_sided prmEx pEx 0 0 rfl (by norm_num [pEx])
    (by norm_num [prmEx]) (by norm_num [prmEx]) (by norm_num [pEx]) le_rfl
    (by norm_num [prmEx, pEx]) (by norm_num [doneSpec, prmEx, pEx])
    (Or.inl (by
      unfold bracketUpdate
      rw [if_pos (by norm_num [pEx, prmEx])]
      constructor
      · simp only
        norm_num [pEx]
      · rfl))

end MPGadget
